import Mathlib

/-!
Verification of the AgriVision MCP server's core request pipeline
(`src/index.ts`): crop-catalog acquisition with static fallback, the
dynamically built crop enumeration, data-URI image validation, the
base64 size estimate, advisory-mode dependent prompt assembly, and the
mapping of upstream model errors to fixed user-facing results.

The TypeScript handler is embedded shallowly: the tool handler body
becomes the pure function `diagnose`, parameterised by whether the
Gemini client is configured and by the upstream call's behaviour; the
catalog fetch loop becomes `fetchCropsFromAgricultureAPI` over an
explicit list of page responses; prompt assembly becomes `prompt`.
JavaScript number arithmetic on the size estimate is exact for all
realistic payload lengths (products of integers below 2^53 divided by
powers of two), so it is modelled with rational numbers.
-/

namespace AgriVision

/-- ADVISORY_MODE environment switch: diagnosis_only | full_advisory. -/
inductive AdvisoryMode
| diagnosis_only
| full_advisory
deriving DecidableEq

/-- OUTPUT_FORMAT environment switch: structured | text. -/
inductive OutputFormat
| structured
| text
deriving DecidableEq

/-- The image subtypes accepted by the validation regex
data:image\/(jpeg|jpg|png|webp);base64,(.+) . -/
inductive ImgType
| jpeg
| jpg
| png
| webp
deriving DecidableEq

/-- The MCP tool result content: the single text block and the isError flag
(absent in the source's success object, modelled as false). -/
structure ToolResult where
  text : String
  isError : Bool
deriving DecidableEq

/-- Hardcoded FALLBACK_CROPS from src/index.ts lines 48-54. -/
def FALLBACK_CROPS : List String :=
  ["maize", "wheat", "rice", "sorghum", "millet",
   "beans", "cowpea", "pigeon_pea", "groundnut",
   "cassava", "sweet_potato", "potato",
   "tomato", "cabbage", "kale", "onion", "vegetables",
   "tea", "coffee", "sugarcane", "banana", "sunflower", "cotton"]

/-- JavaScript's \s character class (the whitespace set used by
the crop-name normalization replace(/\s+/g, '_')). -/
def isJsWhitespace (c : Char) : Bool :=
  c == '\t' || c == '\n' || c == '\u000b' || c == '\u000c' || c == '\r' || c == ' ' ||
  c == '\u00a0' || c == '\u1680' || (0x2000 ≤ c.toNat && c.toNat ≤ 0x200a) ||
  c == '\u2028' || c == '\u2029' || c == '\u202f' || c == '\u205f' ||
  c == '\u3000' || c == '\ufeff'

/-- replace(/\s+/g, '_'): every maximal run of whitespace becomes one
underscore. The flag records whether we are inside a whitespace run. -/
def collapseWsAux : Bool → List Char → List Char
  | _, [] => []
  | inRun, c :: cs =>
    if isJsWhitespace c then
      (if inRun then collapseWsAux true cs else '_' :: collapseWsAux true cs)
    else c :: collapseWsAux false cs

/-- ECMAScript String.prototype.toLowerCase per character: the Unicode
default simple lowercase mapping, written out exactly for the Latin blocks
(Basic Latin, Latin-1 Supplement, Latin Extended-A, Latin Extended-B, Latin
Extended Additional) that form the repertoire of the catalog crop names —
the Vietnamese alphabet (Đ, Ơ, Ư and all tone-marked vowels) included.
Characters outside these blocks are returned unchanged. -/
def jsSimpleLower (c : Char) : Char :=
  let n := c.toNat
  if 0x41 ≤ n ∧ n ≤ 0x5a then Char.ofNat (n + 32)
  else if 0xc0 ≤ n ∧ n ≤ 0xd6 then Char.ofNat (n + 32)
  else if 0xd8 ≤ n ∧ n ≤ 0xde then Char.ofNat (n + 32)
  else if 0x100 ≤ n ∧ n ≤ 0x12e ∧ n % 2 = 0 then Char.ofNat (n + 1)
  else if 0x132 ≤ n ∧ n ≤ 0x136 ∧ n % 2 = 0 then Char.ofNat (n + 1)
  else if 0x139 ≤ n ∧ n ≤ 0x147 ∧ n % 2 = 1 then Char.ofNat (n + 1)
  else if 0x14a ≤ n ∧ n ≤ 0x176 ∧ n % 2 = 0 then Char.ofNat (n + 1)
  else if 0x179 ≤ n ∧ n ≤ 0x17d ∧ n % 2 = 1 then Char.ofNat (n + 1)
  else if 0x182 ≤ n ∧ n ≤ 0x184 ∧ n % 2 = 0 then Char.ofNat (n + 1)
  else if 0x1a0 ≤ n ∧ n ≤ 0x1a4 ∧ n % 2 = 0 then Char.ofNat (n + 1)
  else if 0x1b3 ≤ n ∧ n ≤ 0x1b5 ∧ n % 2 = 1 then Char.ofNat (n + 1)
  else if 0x1cb ≤ n ∧ n ≤ 0x1db ∧ n % 2 = 1 then Char.ofNat (n + 1)
  else if 0x1de ≤ n ∧ n ≤ 0x1ee ∧ n % 2 = 0 then Char.ofNat (n + 1)
  else if 0x1f2 ≤ n ∧ n ≤ 0x1f4 ∧ n % 2 = 0 then Char.ofNat (n + 1)
  else if 0x1f8 ≤ n ∧ n ≤ 0x21e ∧ n % 2 = 0 then Char.ofNat (n + 1)
  else if 0x222 ≤ n ∧ n ≤ 0x232 ∧ n % 2 = 0 then Char.ofNat (n + 1)
  else if 0x246 ≤ n ∧ n ≤ 0x24e ∧ n % 2 = 0 then Char.ofNat (n + 1)
  else if 0x1e00 ≤ n ∧ n ≤ 0x1e94 ∧ n % 2 = 0 then Char.ofNat (n + 1)
  else if 0x1ea0 ≤ n ∧ n ≤ 0x1efe ∧ n % 2 = 0 then Char.ofNat (n + 1)
  else if n = 0x178 then Char.ofNat 0xff
  else if n = 0x181 then Char.ofNat 0x253
  else if n = 0x186 then Char.ofNat 0x254
  else if n = 0x187 then Char.ofNat 0x188
  else if n = 0x189 then Char.ofNat 0x256
  else if n = 0x18a then Char.ofNat 0x257
  else if n = 0x18b then Char.ofNat 0x18c
  else if n = 0x18e then Char.ofNat 0x1dd
  else if n = 0x18f then Char.ofNat 0x259
  else if n = 0x190 then Char.ofNat 0x25b
  else if n = 0x191 then Char.ofNat 0x192
  else if n = 0x193 then Char.ofNat 0x260
  else if n = 0x194 then Char.ofNat 0x263
  else if n = 0x196 then Char.ofNat 0x269
  else if n = 0x197 then Char.ofNat 0x268
  else if n = 0x198 then Char.ofNat 0x199
  else if n = 0x19c then Char.ofNat 0x26f
  else if n = 0x19d then Char.ofNat 0x272
  else if n = 0x19f then Char.ofNat 0x275
  else if n = 0x1a6 then Char.ofNat 0x280
  else if n = 0x1a7 then Char.ofNat 0x1a8
  else if n = 0x1a9 then Char.ofNat 0x283
  else if n = 0x1ac then Char.ofNat 0x1ad
  else if n = 0x1ae then Char.ofNat 0x288
  else if n = 0x1af then Char.ofNat 0x1b0
  else if n = 0x1b1 then Char.ofNat 0x28a
  else if n = 0x1b2 then Char.ofNat 0x28b
  else if n = 0x1b7 then Char.ofNat 0x292
  else if n = 0x1b8 then Char.ofNat 0x1b9
  else if n = 0x1bc then Char.ofNat 0x1bd
  else if n = 0x1c4 then Char.ofNat 0x1c6
  else if n = 0x1c5 then Char.ofNat 0x1c6
  else if n = 0x1c7 then Char.ofNat 0x1c9
  else if n = 0x1c8 then Char.ofNat 0x1c9
  else if n = 0x1ca then Char.ofNat 0x1cc
  else if n = 0x1f1 then Char.ofNat 0x1f3
  else if n = 0x1f6 then Char.ofNat 0x195
  else if n = 0x1f7 then Char.ofNat 0x1bf
  else if n = 0x220 then Char.ofNat 0x19e
  else if n = 0x23a then Char.ofNat 0x2c65
  else if n = 0x23b then Char.ofNat 0x23c
  else if n = 0x23d then Char.ofNat 0x19a
  else if n = 0x23e then Char.ofNat 0x2c66
  else if n = 0x241 then Char.ofNat 0x242
  else if n = 0x243 then Char.ofNat 0x180
  else if n = 0x244 then Char.ofNat 0x289
  else if n = 0x245 then Char.ofNat 0x28c
  else if n = 0x1e9e then Char.ofNat 0xdf
  else c

/-- The full lowercase conversion of one character: identical to the simple
mapping except for İ (U+0130), whose default full lowercase is the two
characters i followed by combining dot above (SpecialCasing), as
JavaScript's toLowerCase produces. -/
def jsLowerChar (c : Char) : List Char :=
  if c.toNat = 0x130 then ['i', '\u0307']
  else [jsSimpleLower c]

/-- Crop-name normalization from the fetch loop (lines 90-95):
name.toLowerCase().replace(/\s+/g, '_').replace(/[()]/g, ''). -/
def normalizeCropName (s : String) : String :=
  String.mk ((collapseWsAux false (s.data.flatMap jsLowerChar)).filter
    (fun c => c != '(' && c != ')'))

/-- The pagination metadata of a catalog page response. -/
structure Pagination where
  page : Nat
  totalPages : Nat
deriving DecidableEq

/-- One response of the paginated crop-catalog API, as the fetch loop
inspects it: response.ok, the body's success flag, data (none models a
body whose data field is not an array), and optional pagination. -/
structure PageResp where
  ok : Bool
  success : Bool
  recs : Option (List String)
  pagination : Option Pagination

/-- The while loop of fetchCropsFromAgricultureAPI over the successive page
responses, page 1 first. some = the accumulated crop identifiers; none = an
error was thrown (non-ok status, invalid body shape, or the next fetch
itself failing, modelled by running out of responses). -/
def fetchPages : List PageResp → Option (List String)
  | [] => none
  | r :: rest =>
    if !r.ok then none
    else if !r.success then none
    else
      match r.recs with
      | none => none
      | some names =>
        let pageCrops := names.map normalizeCropName
        match r.pagination with
        | some pg =>
          if pg.page < pg.totalPages then
            (fetchPages rest).map (fun more => pageCrops ++ more)
          else some pageCrops
        | none => some pageCrops

/-- fetchCropsFromAgricultureAPI: the try/catch around the loop — any thrown
error discards all partial results and returns the fallback list. -/
def fetchCropsFromAgricultureAPI (resps : List PageResp) : List String :=
  (fetchPages resps).getD FALLBACK_CROPS

/-- The dynamically built crop schema (line 181-183): a non-empty catalog
yields z.enum(SUPPORTED_CROPS) (membership), an empty one z.string()
(any string); .optional() accepts an absent crop. -/
def cropAccepted (crops : List String) : Option String → Bool
  | none => true
  | some c => if 0 < crops.length then crops.contains c else true

/-- Line terminators, the characters JavaScript's . (dot) does not match:
the anchored pattern ;base64,(.+)$ therefore rejects payloads containing
any of them. -/
def lineTerminator (c : Char) : Bool :=
  c == '\n' || c == '\r' || c == '\u2028' || c == '\u2029'

/-- Strip an expected leading character sequence; none if it is not there. -/
def dropLead : List Char → List Char → Option (List Char)
  | [], s => some s
  | _ :: _, [] => none
  | p :: ps, c :: cs => if c = p then dropLead ps cs else none

/-- The subtype text of each regex alternative. -/
def subtypeStr : ImgType → String
  | ImgType.jpeg => "jpeg"
  | ImgType.jpg => "jpg"
  | ImgType.png => "png"
  | ImgType.webp => "webp"

/-- One alternative of the regex: <subtype>;base64, followed by a non-empty
payload of non-line-terminator characters reaching the end of the input. -/
def tryType (t : ImgType) (rest : List Char) : Option (ImgType × List Char) :=
  match dropLead (subtypeStr t ++ ";base64,").data rest with
  | none => none
  | some payload =>
    if !payload.isEmpty && payload.all (fun c => !lineTerminator c) then
      some (t, payload)
    else none

/-- image.match(/^data:image\/(jpeg|jpg|png|webp);base64,(.+)$/) as a total
function: some (subtype, payload) on a match, none otherwise. The four
alternatives are mutually exclusive, so trying them in the regex's order is
the regex's backtracking behaviour. -/
def parseImage (image : List Char) : Option (ImgType × List Char) :=
  match dropLead ("data:image/").data image with
  | none => none
  | some rest =>
    match tryType ImgType.jpeg rest with
    | some r => some r
    | none =>
      match tryType ImgType.jpg rest with
      | some r => some r
      | none =>
        match tryType ImgType.png rest with
        | some r => some r
        | none => tryType ImgType.webp rest

/-- imageSizeBytes = (imageData.length * 3) / 4 (line 234), exact. -/
def imageSizeBytesQ (len : Nat) : ℚ := (len : ℚ) * 3 / 4

/-- imageSizeMB = imageSizeBytes / (1024 * 1024) (line 235), exact. -/
def imageSizeMBQ (len : Nat) : ℚ := imageSizeBytesQ len / (1024 * 1024)

/-- The size guard's condition imageSizeMB > 5 (line 237). -/
def exceedsMaxSize (mb : ℚ) : Bool := decide (5 < mb)

/-- Number.prototype.toFixed(1) for the non-negative exact values reached
here: the integer n minimising the distance of n/10 to the value, ties
towards the larger n, printed with one decimal digit. -/
def toFixed1 (q : ℚ) : String :=
  let n : Int := ⌊q * 10 + 1 / 2⌋
  toString (n / 10) ++ "." ++ toString (n % 10)

def serviceUnavailableResult : ToolResult :=
  { text := "❌ Plant diagnosis service is currently unavailable. Please try again later.",
    isError := true }

def noImageResult : ToolResult :=
  { text := "Please provide an image of the plant for diagnosis.", isError := true }

def invalidFormatResult : ToolResult :=
  { text := "Invalid image format. Please provide a JPEG, PNG, or WebP image in base64 format (data:image/jpeg;base64,...).",
    isError := true }

/-- The TooLarge message with the computed size at one decimal place. -/
def tooLargeText (mb : ℚ) : String :=
  "Image is too large (" ++ toFixed1 mb ++ "MB). Please provide an image smaller than 5MB."

def authErrorResult : ToolResult :=
  { text := "❌ Plant diagnosis service configuration error. Please contact support.",
    isError := true }

def quotaErrorResult : ToolResult :=
  { text := "❌ Plant diagnosis service is temporarily unavailable due to high demand. Please try again later.",
    isError := true }

def unknownErrorResult : ToolResult :=
  { text := "Unable to analyze the plant image. Please ensure the image clearly shows the plant and try again.",
    isError := true }

/-- pat occurs in s as a contiguous substring (String.prototype.includes). -/
def OccursIn (pat s : String) : Prop := pat.data <:+: s.data

instance (pat s : String) : Decidable (OccursIn pat s) :=
  List.decidableInfix pat.data s.data

/-- The catch block of the handler (lines 386-416): error.message is probed
with includes('API key') first, then includes('quota'); each branch returns
a fixed message. -/
def handleUpstreamError (msg : String) : ToolResult :=
  if OccursIn "API key" msg then authErrorResult
  else if OccursIn "quota" msg then quotaErrorResult
  else unknownErrorResult

/-- What the model.generateContent call does on a given request: returns a
report text, or throws an error carrying a message. -/
inductive UpstreamBehavior
| succeeds (text : String)
| throws (msg : String)

/-- The tail of the handler after a successful pattern match (lines 233-416):
the size ceiling on the extracted payload, then the upstream call with its
catch-block error mapping. -/
def sizeStage (payload : List Char) (upstream : UpstreamBehavior) : ToolResult :=
  let mb := imageSizeMBQ payload.length
  if exceedsMaxSize mb then { text := tooLargeText mb, isError := true }
  else
    match upstream with
    | UpstreamBehavior.succeeds txt => { text := txt, isError := false }
    | UpstreamBehavior.throws msg => handleUpstreamError msg

/-- The diagnose_plant_health handler body (lines 192-417): Gemini-configured
preflight, empty-image check, data-URI pattern match, then `sizeStage`.
`configured` is !!genAI. -/
def diagnose (configured : Bool) (_mode : AdvisoryMode) (_fmt : OutputFormat)
    (image : String) (_crop : Option String) (upstream : UpstreamBehavior) : ToolResult :=
  if !configured then serviceUnavailableResult
  else if image.length = 0 then noImageResult
  else
    match parseImage image.data with
    | none => invalidFormatResult
    | some (_t, payload) => sizeStage payload upstream

/-- crop.replace('_', ' ') with a string pattern: only the first underscore
is replaced. -/
def replaceFirstUnderscore : List Char → List Char
  | [] => []
  | c :: cs => if c = '_' then ' ' :: cs else c :: replaceFirstUnderscore cs

/-- The cropContext ternary (lines 262-264). -/
def cropContext : Option String → String
  | some c =>
    "The plant is expected to be " ++ String.mk (replaceFirstUnderscore c.data) ++
    ". Verify if the image matches this crop type."
  | none => "Identify the plant/crop species from the image."

/-- OUTPUT_FORMAT === 'structured' ? 'structured' : 'detailed' (line 267). -/
def reportStyle : OutputFormat → String
  | OutputFormat.structured => "structured"
  | OutputFormat.text => "detailed"

/-- OUTPUT_FORMAT === 'structured' ? 'structured format' : 'format' (line 271). -/
def analysisFormat : OutputFormat → String
  | OutputFormat.structured => "structured format"
  | OutputFormat.text => "format"

/-- The always-included diagnostic directives of promptSections (lines 273-300). -/
def diagnosticDirectives : String :=
  "🌱 **CROP IDENTIFICATION:**\n[Identify the crop/plant species with confidence level (High/Medium/Low)]\n[If crop was specified but doesn't match: clearly state the mismatch]\n[Format: \"Crop: [Name] (Scientific: [Latin name]) - Confidence: [level]\"]\n\n🔍 **HEALTH STATUS:**\n[Overall health: Healthy / Mild Issue / Moderate Issue / Severe Issue / Critical]\n[Confidence: High / Medium / Low]\n\n⚠️ **ISSUE DETECTION:**\n[If issues detected, list each one separately:]\n\n**Issue 1: [Disease/Pest/Deficiency Name]**\n- Scientific name: [Latin name if applicable]\n- Category: [Disease/Pest/Nutrient Deficiency/Physical Damage/Other]\n- Severity: [Low/Moderate/High/Critical]\n- Stage: [Early/Active/Advanced]\n- Affected parts: [Leaves/Stem/Roots/Fruit/Flowers/Entire plant]\n- Visible symptoms: [Detailed list of what you observe]\n- Causal agent: [Fungus/Bacteria/Virus/Insect/Mite/Environmental/Unknown]\n\n[Repeat for each issue detected]\n\n📊 **GROWTH STAGE:**\n[Seedling/Vegetative/Flowering/Fruiting/Mature/Senescent]\n\n🔬 **DIAGNOSTIC NOTES:**\n[Additional observations, differential diagnosis if multiple possibilities, uncertainty notes]"

/-- The treatment-recommendations section header appended in full_advisory
mode (line 306). -/
def treatmentMarker : String := "💊 **TREATMENT RECOMMENDATIONS:**"

def organicMarker : String := "*Organic Options:*"

def chemicalMarker : String := "*Chemical Options:*"

def preventiveMarker : String := "*Preventive Measures:*"

/-- The safety-disclaimer header of the appended section (line 332). -/
def safetyNotesMarker : String := "⚠️ **IMPORTANT NOTES:**"

/-- The block += appended to promptSections when ADVISORY_MODE is
full_advisory (lines 304-336), written as the concatenation of its literal
pieces around the named section markers. -/
def treatmentSection : String :=
  "\n\n" ++ treatmentMarker ++
  "\n[For each detected issue, provide treatment guidance:]\n\n**Treatment for Issue 1: [Issue Name]**\n\n" ++
  organicMarker ++
  "\n- Option 1: [Treatment name/method]\n  - Application: [How to apply]\n  - Frequency: [How often]\n  - Timing: [When to apply]\n- Option 2: [Alternative organic treatment]\n\n" ++
  chemicalMarker ++
  "\n- Product 1: [Active ingredient/product type]\n  - Application: [How to apply]\n  - Dosage: [General dosage guidance]\n  - Safety: [Key safety precautions]\n- Product 2: [Alternative chemical treatment]\n\n" ++
  preventiveMarker ++
  "\n- [Cultural practices to prevent recurrence]\n- [Environmental management]\n- [Crop rotation/spacing recommendations]\n\n[Repeat for each issue]\n\n" ++
  safetyNotesMarker ++
  "\n- Always consult local agricultural extension services for region-specific product recommendations\n- Follow all product label instructions and safety guidelines\n- Consider integrated pest management (IPM) approaches\n- Monitor plant response and adjust treatment as needed"

/-- The mode rule shared by both formatting-rule variants in diagnosis_only
mode (lines 349 and 358). -/
def diagnosisOnlyRule : String :=
  "Focus ONLY on diagnosis - NO treatment recommendations, NO regional advice"

/-- promptSections (lines 267-337): the base diagnostic prompt, plus the
treatment section in full_advisory mode. -/
def promptSections (mode : AdvisoryMode) (fmt : OutputFormat) (crop : Option String) : String :=
  "You are an expert agricultural pathologist. Analyze this plant image and provide a " ++
  reportStyle fmt ++ " report.\n\n" ++ cropContext crop ++
  "\n\nProvide your analysis in the following " ++ analysisFormat fmt ++ ":\n\n" ++
  diagnosticDirectives ++
  (match mode with
   | AdvisoryMode.full_advisory => treatmentSection
   | AdvisoryMode.diagnosis_only => "")

/-- The formattingRules ternary (lines 340-359). -/
def formattingRules (mode : AdvisoryMode) (fmt : OutputFormat) : String :=
  match fmt with
  | OutputFormat.structured =>
    "\n\nIMPORTANT RULES:\n- Be specific about disease/pest names (use both common and scientific names)\n- If image is unclear or doesn't show a plant, state this clearly\n- If uncertain, provide confidence levels and alternative possibilities\n- Use precise botanical and pathological terminology\n- Maintain structured format with clear sections\n- " ++
    (match mode with
     | AdvisoryMode.diagnosis_only => diagnosisOnlyRule
     | AdvisoryMode.full_advisory => "Provide comprehensive treatment guidance with multiple options") ++
    "\n- Indicate if further laboratory testing is recommended for confirmation"
  | OutputFormat.text =>
    "\n\nIMPORTANT RULES:\n- Be specific about disease/pest names (use both common and scientific names)\n- If image is unclear or doesn't show a plant, state this clearly\n- If uncertain, provide confidence levels and alternative possibilities\n- Use clear, readable formatting with appropriate spacing\n- " ++
    (match mode with
     | AdvisoryMode.diagnosis_only => diagnosisOnlyRule
     | AdvisoryMode.full_advisory => "Provide comprehensive treatment guidance in a farmer-friendly format") ++
    "\n- Indicate if further laboratory testing is recommended for confirmation"

/-- const prompt = promptSections + formattingRules (line 361). -/
def prompt (mode : AdvisoryMode) (fmt : OutputFormat) (crop : Option String) : String :=
  promptSections mode fmt crop ++ formattingRules mode fmt

/-- A data URI assembled from a subtype and a payload character sequence. -/
def mkDataUri (t : ImgType) (payload : List Char) : String :=
  String.mk (("data:image/" ++ subtypeStr t ++ ";base64,").data ++ payload)

/-! Shared helper lemmas. -/

theorem occursIn_self (p : String) : OccursIn p p :=
  ⟨[], [], by simp⟩

theorem occursIn_appL {p s : String} (t : String) (h : OccursIn p s) : OccursIn p (s ++ t) := by
  obtain ⟨u, v, huv⟩ := h
  refine ⟨u, v ++ t.data, ?_⟩
  rw [String.data_append, ← huv]
  simp [List.append_assoc]

theorem occursIn_appR {p t : String} (s : String) (h : OccursIn p t) : OccursIn p (s ++ t) := by
  obtain ⟨u, v, huv⟩ := h
  refine ⟨s.data ++ u, v, ?_⟩
  rw [String.data_append, ← huv]
  simp [List.append_assoc]

theorem not_occursIn_of_absent {p s : String} {x : Char} (hx : x ∈ p.data)
    (h : s.data.all (fun c => c != x) = true) : ¬ OccursIn p s := by
  rintro ⟨u, v, huv⟩
  have hmem : x ∈ s.data := by
    rw [← huv]
    simp [hx]
  have hne := List.all_eq_true.mp h x hmem
  simp at hne

theorem all_append_str (p : Char → Bool) (a b : String) :
    (a ++ b).data.all p = (a.data.all p && b.data.all p) := by
  rw [String.data_append, List.all_append]

theorem mem_replaceFirstUnderscore {c : Char} :
    ∀ {l : List Char}, c ∈ replaceFirstUnderscore l → c = ' ' ∨ c ∈ l := by
  intro l
  induction l with
  | nil => intro h; simp [replaceFirstUnderscore] at h
  | cons a as ih =>
    intro h
    rw [replaceFirstUnderscore] at h
    by_cases ha : a = '_'
    · rw [if_pos ha] at h
      rcases List.mem_cons.mp h with h1 | h1
      · exact Or.inl h1
      · exact Or.inr (List.mem_cons_of_mem a h1)
    · rw [if_neg ha] at h
      rcases List.mem_cons.mp h with h1 | h1
      · exact Or.inr (h1 ▸ List.mem_cons_self a as)
      · rcases ih h1 with h2 | h2
        · exact Or.inl h2
        · exact Or.inr (List.mem_cons_of_mem a h2)

theorem dropLead_append (xs ys : List Char) : dropLead xs (xs ++ ys) = some ys := by
  induction xs with
  | nil => simp [dropLead]
  | cons a as ih => simp [dropLead, ih]

/-- A page response on which the fetch loop accumulates and continues to the
next page. -/
def continuesPage (r : PageResp) : Prop :=
  r.ok = true ∧ r.success = true ∧ (∃ names, r.recs = some names) ∧
  ∃ pg, r.pagination = some pg ∧ pg.page < pg.totalPages

/-- A page response on which the fetch loop throws: non-success HTTP status,
a body whose success flag is false, or a body whose data is not an array. -/
def failsPage (r : PageResp) : Prop :=
  r.ok = false ∨ r.success = false ∨ r.recs = none

theorem fetchPages_cons_of_continues {r : PageResp} (rest : List PageResp)
    (h : continuesPage r) :
    ∃ names, r.recs = some names ∧
      fetchPages (r :: rest) =
        (fetchPages rest).map (fun more => names.map normalizeCropName ++ more) := by
  obtain ⟨hok, hsucc, ⟨names, hnames⟩, pg, hpg, hlt⟩ := h
  exact ⟨names, hnames, by simp [fetchPages, hok, hsucc, hnames, hpg, hlt]⟩

theorem fetchPages_none_of_continues :
    ∀ (pre tail : List PageResp), (∀ p ∈ pre, continuesPage p) →
      fetchPages tail = none → fetchPages (pre ++ tail) = none := by
  intro pre
  induction pre with
  | nil => intro tail _ htail; simpa using htail
  | cons r rest ih =>
    intro tail h htail
    obtain ⟨names, hnames, heq⟩ :=
      fetchPages_cons_of_continues (rest ++ tail) (h r (List.mem_cons_self r rest))
    rw [List.cons_append, heq, ih tail (fun p hp => h p (List.mem_cons_of_mem r hp)) htail]
    rfl

theorem fetchPages_cons_none_of_fails {r : PageResp} (rest : List PageResp)
    (h : failsPage r) : fetchPages (r :: rest) = none := by
  rcases h with h | h | h
  · simp [fetchPages, h]
  · cases hok : r.ok <;> simp [fetchPages, hok, h]
  · cases hok : r.ok <;> cases hsucc : r.success <;> simp [fetchPages, hok, hsucc, h]

theorem diagnose_parsed {image : String} {t : ImgType} {payload : List Char}
    (m : AdvisoryMode) (f : OutputFormat) (crop : Option String) (up : UpstreamBehavior)
    (hlen : ¬ image.length = 0) (hp : parseImage image.data = some (t, payload)) :
    diagnose true m f image crop up = sizeStage payload up := by
  unfold diagnose
  rw [Bool.not_true]
  rw [if_neg Bool.false_ne_true]
  rw [if_neg hlen]
  rw [hp]

theorem sizeStage_tooLarge (payload : List Char) (up : UpstreamBehavior)
    (h : exceedsMaxSize (imageSizeMBQ payload.length) = true) :
    sizeStage payload up =
      { text := tooLargeText (imageSizeMBQ payload.length), isError := true } := by
  show (if exceedsMaxSize (imageSizeMBQ payload.length) then
      ({ text := tooLargeText (imageSizeMBQ payload.length), isError := true } : ToolResult)
    else
      match up with
      | UpstreamBehavior.succeeds txt => { text := txt, isError := false }
      | UpstreamBehavior.throws msg => handleUpstreamError msg) =
    { text := tooLargeText (imageSizeMBQ payload.length), isError := true }
  rw [h]
  rw [if_pos rfl]

/-! Claim theorems. -/

/-- Claim C2: for every request (any image string, any crop), if the external
model client is unconfigured, diagnose_plant_health returns the
service-unavailable failure with isError true, and no other validation runs:
the result is the same for empty and malformed images. -/
theorem c2_preflight_unconfigured (m : AdvisoryMode) (f : OutputFormat)
    (image : String) (crop : Option String) (up : UpstreamBehavior) :
    diagnose false m f image crop up = serviceUnavailableResult ∧
    serviceUnavailableResult.isError = true :=
  ⟨rfl, rfl⟩

/-- Claim C3: with a configured client, an empty image string returns the
no-image InvalidInput result (not the format one, so before pattern
matching), and every non-empty string on which the data-URI pattern fails
returns the invalid-format InvalidInput result; the embedding is a total
function, so no input crashes. -/
theorem c3_image_validation (m : AdvisoryMode) (f : OutputFormat)
    (crop : Option String) (up : UpstreamBehavior) (image : String) :
    (image = "" → diagnose true m f image crop up = noImageResult) ∧
    (image ≠ "" → parseImage image.data = none →
      diagnose true m f image crop up = invalidFormatResult) := by
  constructor
  · rintro rfl; rfl
  · intro hne hparse
    have hlen : ¬ image.length = 0 := by
      intro h0
      have hdata : image.data = [] := List.length_eq_zero.mp h0
      exact hne (String.ext (by simp [hdata]))
    simp [diagnose, hlen, hparse]

/-- Witness for C3 at the empty string and at the non-matching string
"hello". -/
theorem c3_image_validation_witness :
    diagnose true AdvisoryMode.diagnosis_only OutputFormat.structured ""
      none (UpstreamBehavior.succeeds "ok") = noImageResult ∧
    (("hello" : String) ≠ "" ∧ parseImage ("hello" : String).data = none ∧
      diagnose true AdvisoryMode.diagnosis_only OutputFormat.structured "hello"
        none (UpstreamBehavior.succeeds "ok") = invalidFormatResult) :=
  ⟨(c3_image_validation _ _ _ _ "").1 rfl,
   by decide,
   by decide,
   (c3_image_validation _ _ _ _ "hello").2 (by decide) (by decide)⟩

/-- Claim C6: when the crop-catalog snapshot is non-empty, the dynamically
built enumeration rejects any crop value outside the snapshot, and every
accepted crop value belongs to the snapshot. -/
theorem c6_crop_validation (crops : List String) (c : String) (hne : crops ≠ []) :
    (c ∉ crops → cropAccepted crops (some c) = false) ∧
    (cropAccepted crops (some c) = true → c ∈ crops) := by
  have hlen : 0 < crops.length := List.length_pos.mpr hne
  constructor
  · intro hnm
    simp [cropAccepted, hlen]
    simpa using hnm
  · intro h
    simp [cropAccepted, hlen] at h
    simpa using h

/-- Witness for C6: the fallback catalog is non-empty, "durian" is not in it
and is rejected; "maize" is accepted and is in it. -/
theorem c6_crop_validation_witness :
    FALLBACK_CROPS ≠ [] ∧ ("durian" : String) ∉ FALLBACK_CROPS ∧
    cropAccepted FALLBACK_CROPS (some "durian") = false ∧
    cropAccepted FALLBACK_CROPS (some "maize") = true ∧ ("maize" : String) ∈ FALLBACK_CROPS :=
  ⟨by decide, by decide,
   (c6_crop_validation FALLBACK_CROPS "durian" (by decide)).1 (by decide),
   by decide,
   (c6_crop_validation FALLBACK_CROPS "maize" (by decide)).2 (by decide)⟩

/-- Claim C9: prompt composition is a pure function of the triple
(advisoryMode, outputFormat, crop): evaluations at equal triples produce
identical strings (no randomness, no timestamps in the embedding). -/
theorem c9_prompt_deterministic (m m' : AdvisoryMode) (f f' : OutputFormat)
    (c c' : Option String) (hm : m = m') (hf : f = f') (hc : c = c') :
    prompt m f c = prompt m' f' c' := by
  subst hm; subst hf; subst hc; rfl

/-- A four-character payload is far below the 5 MB ceiling. -/
theorem small_image_size_ok : exceedsMaxSize (imageSizeMBQ 4) = false := by
  simp [exceedsMaxSize, imageSizeMBQ, imageSizeBytesQ]
  norm_num

/-- Claim C5 (amended): the catch block checks "API key" before "quota", so a
message containing "API key" maps to the auth result even if it also contains
"quota"; a message containing "quota" but not "API key" maps to the quota
result; any other message maps to the unknown result; every outcome text is
one of the three fixed strings, independent of the raw upstream message. The
first conjunct ties the mapping to the handler on a valid image. -/
theorem c5_upstream_error_mapping (m : AdvisoryMode) (f : OutputFormat)
    (crop : Option String) (msg : String) :
    diagnose true m f "data:image/jpeg;base64,AAAA" crop (UpstreamBehavior.throws msg) =
      handleUpstreamError msg ∧
    (OccursIn "API key" msg → handleUpstreamError msg = authErrorResult) ∧
    (¬ OccursIn "API key" msg → OccursIn "quota" msg →
      handleUpstreamError msg = quotaErrorResult) ∧
    (¬ OccursIn "API key" msg → ¬ OccursIn "quota" msg →
      handleUpstreamError msg = unknownErrorResult) ∧
    (handleUpstreamError msg = authErrorResult ∨
     handleUpstreamError msg = quotaErrorResult ∨
     handleUpstreamError msg = unknownErrorResult) := by
  have hp : parseImage ("data:image/jpeg;base64,AAAA" : String).data =
      some (ImgType.jpeg, ['A', 'A', 'A', 'A']) := by decide
  have hl : ("data:image/jpeg;base64,AAAA" : String).length = 27 := rfl
  refine ⟨?_, ?_, ?_, ?_, ?_⟩
  · simp [diagnose, sizeStage, hl, hp, small_image_size_ok]
  · intro h; simp [handleUpstreamError, h]
  · intro h1 h2; simp [handleUpstreamError, h1, h2]
  · intro h1 h2; simp [handleUpstreamError, h1, h2]
  · by_cases h1 : OccursIn "API key" msg
    · exact Or.inl (by simp [handleUpstreamError, h1])
    · by_cases h2 : OccursIn "quota" msg
      · exact Or.inr (Or.inl (by simp [handleUpstreamError, h1, h2]))
      · exact Or.inr (Or.inr (by simp [handleUpstreamError, h1, h2]))

/-- Counterexample for C5 as stated: the upstream message "API key daily
quota exceeded" contains "quota", yet the outcome is the auth-error result,
not the quota result, because the "API key" check runs first. -/
theorem c5_quota_counterexample :
    OccursIn "quota" "API key daily quota exceeded" ∧
    handleUpstreamError "API key daily quota exceeded" = authErrorResult ∧
    authErrorResult ≠ quotaErrorResult := by
  refine ⟨by decide, ?_, by decide⟩
  have h : OccursIn "API key" "API key daily quota exceeded" := by decide
  simp [handleUpstreamError, h]

/-- Witness for C5 at concrete messages exercising each branch. -/
theorem c5_upstream_error_mapping_witness :
    handleUpstreamError "API key invalid" = authErrorResult ∧
    handleUpstreamError "Resource quota exhausted" = quotaErrorResult ∧
    handleUpstreamError "socket hang up" = unknownErrorResult ∧
    diagnose true AdvisoryMode.diagnosis_only OutputFormat.structured
      "data:image/jpeg;base64,AAAA" none (UpstreamBehavior.throws "socket hang up") =
      unknownErrorResult :=
  ⟨(c5_upstream_error_mapping AdvisoryMode.diagnosis_only OutputFormat.structured
      none "API key invalid").2.1 (by decide),
   (c5_upstream_error_mapping AdvisoryMode.diagnosis_only OutputFormat.structured
      none "Resource quota exhausted").2.2.1 (by decide) (by decide),
   (c5_upstream_error_mapping AdvisoryMode.diagnosis_only OutputFormat.structured
      none "socket hang up").2.2.2.1 (by decide) (by decide),
   ((c5_upstream_error_mapping AdvisoryMode.diagnosis_only OutputFormat.structured
      none "socket hang up").1).trans
    ((c5_upstream_error_mapping AdvisoryMode.diagnosis_only OutputFormat.structured
      none "socket hang up").2.2.2.1 (by decide) (by decide))⟩

/-- Claim C7: whenever the catalog fetch fails at any step — the next fetch
throwing (modelled by the response list ending while more pages are
expected), a non-ok HTTP status, a false success flag, or a non-array body —
on any page, all partially accumulated identifiers are discarded and the
static fallback list is returned unmodified; the function is total, so no
error propagates. -/
theorem c7_catalog_fallback (pre : List PageResp) (h : ∀ p ∈ pre, continuesPage p) :
    fetchCropsFromAgricultureAPI pre = FALLBACK_CROPS ∧
    ∀ (r : PageResp) (rest : List PageResp), failsPage r →
      fetchCropsFromAgricultureAPI (pre ++ r :: rest) = FALLBACK_CROPS := by
  constructor
  · have hnone := fetchPages_none_of_continues pre [] h rfl
    rw [List.append_nil] at hnone
    simp [fetchCropsFromAgricultureAPI, hnone]
  · intro r rest hr
    have hnone := fetchPages_none_of_continues pre (r :: rest) h
      (fetchPages_cons_none_of_fails rest hr)
    simp [fetchCropsFromAgricultureAPI, hnone]

/-- Witness for C7: one good page announcing 3 total pages, followed by a
page whose success flag is false. -/
theorem c7_catalog_fallback_witness :
    (∀ p ∈ [PageResp.mk true true (some ["Rice", "Coffee"]) (some ⟨1, 3⟩)], continuesPage p) ∧
    failsPage (PageResp.mk true false none none) ∧
    fetchCropsFromAgricultureAPI
      ([PageResp.mk true true (some ["Rice", "Coffee"]) (some ⟨1, 3⟩)] ++
        PageResp.mk true false none none :: []) = FALLBACK_CROPS := by
  have h : ∀ p ∈ [PageResp.mk true true (some ["Rice", "Coffee"]) (some ⟨1, 3⟩)],
      continuesPage p := by
    intro p hp
    rw [List.mem_singleton] at hp
    subst hp
    exact ⟨rfl, rfl, ⟨_, rfl⟩, ⟨1, 3⟩, rfl, by decide⟩
  exact ⟨h, Or.inr (Or.inl rfl),
    (c7_catalog_fallback _ h).2 (PageResp.mk true false none none) [] (Or.inr (Or.inl rfl))⟩

/-- Claim C8: a 3-page catalog of 50/50/10 records with pagination
totalPages = 3 on each page terminates and yields exactly 110 identifiers in
page order, each the record's name lowercased (Unicode-aware, as
toLowerCase), with whitespace runs collapsed to single underscores and
parentheses stripped (illustrated on an English and a Vietnamese name in the
last conjuncts). -/
theorem c8_pagination (n1 n2 n3 : List String)
    (h1 : n1.length = 50) (h2 : n2.length = 50) (h3 : n3.length = 10) :
    fetchCropsFromAgricultureAPI
        [PageResp.mk true true (some n1) (some ⟨1, 3⟩),
         PageResp.mk true true (some n2) (some ⟨2, 3⟩),
         PageResp.mk true true (some n3) (some ⟨3, 3⟩)] =
      (n1 ++ n2 ++ n3).map normalizeCropName ∧
    ((n1 ++ n2 ++ n3).map normalizeCropName).length = 110 ∧
    normalizeCropName "Sweet  Potato (Local)" = "sweet_potato_local" ∧
    normalizeCropName "Đậu Xanh (Mung Bean)" = "đậu_xanh_mung_bean" := by
  refine ⟨?_, ?_, by decide, by decide⟩
  · simp [fetchCropsFromAgricultureAPI, fetchPages]
  · simp [List.length_map, List.length_append, h1, h2, h3]

/-- Witness for C8 at concrete pages of 50, 50 and 10 records. -/
theorem c8_pagination_witness :
    (List.replicate 50 "Robusta Coffee").length = 50 ∧
    (List.replicate 50 "Cacao").length = 50 ∧
    (List.replicate 10 "Dragon Fruit (Red)").length = 10 ∧
    fetchCropsFromAgricultureAPI
        [PageResp.mk true true (some (List.replicate 50 "Robusta Coffee")) (some ⟨1, 3⟩),
         PageResp.mk true true (some (List.replicate 50 "Cacao")) (some ⟨2, 3⟩),
         PageResp.mk true true (some (List.replicate 10 "Dragon Fruit (Red)")) (some ⟨3, 3⟩)] =
      (List.replicate 50 "Robusta Coffee" ++ List.replicate 50 "Cacao" ++
        List.replicate 10 "Dragon Fruit (Red)").map normalizeCropName :=
  ⟨by simp, by simp, by simp,
   (c8_pagination _ _ _ (by simp) (by simp) (by simp)).1⟩

/-- Witness for C9 at a concrete triple. -/
theorem c9_prompt_deterministic_witness :
    AdvisoryMode.full_advisory = AdvisoryMode.full_advisory ∧
    OutputFormat.structured = OutputFormat.structured ∧
    (some "maize" : Option String) = some "maize" ∧
    prompt AdvisoryMode.full_advisory OutputFormat.structured (some "maize") =
      prompt AdvisoryMode.full_advisory OutputFormat.structured (some "maize") :=
  ⟨rfl, rfl, rfl,
   c9_prompt_deterministic _ _ _ _ _ _ rfl rfl rfl⟩

/-! Occurrence machinery for the prompt-section claims. The pill emoji opens
the treatment-recommendations header and appears nowhere else in the prompt
material, so its absence witnesses the absence of the whole marker. -/

theorem pill_in_marker : '💊' ∈ treatmentMarker.data := by decide

set_option maxRecDepth 4000 in
theorem directives_pillFree : diagnosticDirectives.data.all (fun c => c != '💊') = true := rfl

set_option maxRecDepth 4000 in
theorem rules_pillFree (m : AdvisoryMode) (f : OutputFormat) :
    (formattingRules m f).data.all (fun c => c != '💊') = true := by
  cases m <;> cases f <;> rfl

theorem cropContext_pillFree (crop : Option String)
    (hcrop : ∀ s, crop = some s → ∀ ch ∈ s.data, ch ≠ '💊') :
    (cropContext crop).data.all (fun c => c != '💊') = true := by
  cases crop with
  | none => rfl
  | some c =>
    have h := hcrop c rfl
    have hmid : (String.mk (replaceFirstUnderscore c.data)).data.all
        (fun ch => ch != '💊') = true := by
      rw [List.all_eq_true]
      intro x hx
      rcases mem_replaceFirstUnderscore hx with h1 | h1
      · subst h1; rfl
      · simpa using h x h1
    rw [cropContext, all_append_str, all_append_str, hmid]
    decide

theorem sections_diag_pillFree (f : OutputFormat) (crop : Option String)
    (hcrop : ∀ s, crop = some s → ∀ ch ∈ s.data, ch ≠ '💊') :
    (promptSections AdvisoryMode.diagnosis_only f crop).data.all
      (fun c => c != '💊') = true := by
  have hc := cropContext_pillFree crop hcrop
  have hd := directives_pillFree
  cases f <;>
    simp only [promptSections, reportStyle, analysisFormat, all_append_str, hc, hd] <;>
    decide

theorem prompt_diag_pillFree (f : OutputFormat) (crop : Option String)
    (hcrop : ∀ s, crop = some s → ∀ ch ∈ s.data, ch ≠ '💊') :
    (prompt AdvisoryMode.diagnosis_only f crop).data.all (fun c => c != '💊') = true := by
  have h1 := sections_diag_pillFree f crop hcrop
  have h2 := rules_pillFree AdvisoryMode.diagnosis_only f
  rw [prompt, all_append_str, h1, h2]
  rfl

theorem treatmentSection_marks :
    OccursIn treatmentMarker treatmentSection ∧ OccursIn organicMarker treatmentSection ∧
    OccursIn chemicalMarker treatmentSection ∧ OccursIn preventiveMarker treatmentSection ∧
    OccursIn safetyNotesMarker treatmentSection := by
  refine ⟨?_, ?_, ?_, ?_, ?_⟩ <;>
    simp only [treatmentSection] <;>
    repeat first
      | exact occursIn_appR _ (occursIn_self _)
      | exact occursIn_self _
      | apply occursIn_appL

theorem prompt_full_marks (f : OutputFormat) (crop : Option String) :
    OccursIn treatmentMarker (prompt AdvisoryMode.full_advisory f crop) ∧
    OccursIn organicMarker (prompt AdvisoryMode.full_advisory f crop) ∧
    OccursIn chemicalMarker (prompt AdvisoryMode.full_advisory f crop) ∧
    OccursIn preventiveMarker (prompt AdvisoryMode.full_advisory f crop) ∧
    OccursIn safetyNotesMarker (prompt AdvisoryMode.full_advisory f crop) := by
  obtain ⟨h1, h2, h3, h4, h5⟩ := treatmentSection_marks
  have lift : ∀ pat : String, OccursIn pat treatmentSection →
      OccursIn pat (prompt AdvisoryMode.full_advisory f crop) := by
    intro pat h
    simp only [prompt, promptSections]
    exact occursIn_appL _ (occursIn_appR _ h)
  exact ⟨lift _ h1, lift _ h2, lift _ h3, lift _ h4, lift _ h5⟩

/-- Claim C1 (amended): for every output format and crop value (whose text
does not itself contain the pill emoji opening the treatment header), the
diagnosis_only prompt contains no treatment-recommendations section marker,
while the full_advisory prompt contains the treatment-recommendations header
with its organic-options, chemical-options and preventive-measures blocks and
the safety-disclaimer header. (As stated the claim also asserted the absence
of all treatment vocabulary in diagnosis_only mode, which fails: the
formatting rule "NO treatment recommendations" mentions the word.) -/
theorem c1_mode_sections (f : OutputFormat) (crop : Option String)
    (hcrop : ∀ s, crop = some s → ∀ ch ∈ s.data, ch ≠ '💊') :
    ¬ OccursIn treatmentMarker (prompt AdvisoryMode.diagnosis_only f crop) ∧
    OccursIn treatmentMarker (prompt AdvisoryMode.full_advisory f crop) ∧
    OccursIn organicMarker (prompt AdvisoryMode.full_advisory f crop) ∧
    OccursIn chemicalMarker (prompt AdvisoryMode.full_advisory f crop) ∧
    OccursIn preventiveMarker (prompt AdvisoryMode.full_advisory f crop) ∧
    OccursIn safetyNotesMarker (prompt AdvisoryMode.full_advisory f crop) := by
  obtain ⟨h1, h2, h3, h4, h5⟩ := prompt_full_marks f crop
  exact ⟨not_occursIn_of_absent pill_in_marker (prompt_diag_pillFree f crop hcrop),
    h1, h2, h3, h4, h5⟩

/-- Counterexample for C1 as stated: the diagnosis_only prompt does contain
treatment vocabulary — the substring "treatment" occurs in it (inside the
rule "NO treatment recommendations"). -/
theorem c1_treatment_vocab_counterexample :
    OccursIn "treatment"
      (prompt AdvisoryMode.diagnosis_only OutputFormat.structured (some "maize")) := by
  have h0 : OccursIn "treatment" diagnosisOnlyRule :=
    ⟨("Focus ONLY on diagnosis - NO " : String).data,
     (" recommendations, NO regional advice" : String).data, by decide⟩
  have h1 : OccursIn "treatment"
      (formattingRules AdvisoryMode.diagnosis_only OutputFormat.structured) := by
    simp only [formattingRules]
    exact occursIn_appL _ (occursIn_appR _ h0)
  simp only [prompt]
  exact occursIn_appR _ h1

/-- Witness for C1 at the structured format and the crop "maize". -/
theorem c1_mode_sections_witness :
    (∀ s, (some "maize" : Option String) = some s → ∀ ch ∈ s.data, ch ≠ '💊') ∧
    ¬ OccursIn treatmentMarker
        (prompt AdvisoryMode.diagnosis_only OutputFormat.structured (some "maize")) ∧
    OccursIn treatmentMarker
      (prompt AdvisoryMode.full_advisory OutputFormat.structured (some "maize")) := by
  have h : ∀ s, (some "maize" : Option String) = some s → ∀ ch ∈ s.data, ch ≠ '💊' := by
    intro s hs
    cases hs
    decide
  exact ⟨h, (c1_mode_sections OutputFormat.structured (some "maize") h).1,
    (c1_mode_sections OutputFormat.structured (some "maize") h).2.1⟩

/-- The regex accepts any payload of non-line-terminator characters after a
supported subtype's ;base64, leadin, returning the subtype and the raw
payload, with no base64-alphabet check. -/
theorem parseImage_mkDataUri (t : ImgType) (payload : List Char) (h1 : payload ≠ [])
    (h2 : ∀ c ∈ payload, lineTerminator c = false) :
    parseImage (mkDataUri t payload).data = some (t, payload) := by
  have he : payload.isEmpty = false := by
    cases payload with
    | nil => exact absurd rfl h1
    | cons a as => rfl
  have ha : payload.all (fun c => !lineTerminator c) = true :=
    List.all_eq_true.mpr (fun c hc => by simp [h2 c hc])
  have hguard : (!payload.isEmpty && payload.all fun c => !lineTerminator c) = true := by
    simp [he, ha]
  cases t with
  | jpeg =>
    show parseImage (("data:image/" : String).data ++
      (("jpeg;base64," : String).data ++ payload)) = _
    have ht : tryType ImgType.jpeg (("jpeg;base64," : String).data ++ payload) =
        some (ImgType.jpeg, payload) := by
      simp only [tryType, subtypeStr]
      rw [show ("jpeg" ++ ";base64," : String).data = ("jpeg;base64," : String).data from rfl]
      rw [dropLead_append]
      simp [hguard, he, ha]
    simp only [parseImage, dropLead_append, ht]
  | jpg =>
    show parseImage (("data:image/" : String).data ++
      (("jpg;base64," : String).data ++ payload)) = _
    have hn1 : tryType ImgType.jpeg (("jpg;base64," : String).data ++ payload) = none := rfl
    have ht : tryType ImgType.jpg (("jpg;base64," : String).data ++ payload) =
        some (ImgType.jpg, payload) := by
      simp only [tryType, subtypeStr]
      rw [show ("jpg" ++ ";base64," : String).data = ("jpg;base64," : String).data from rfl]
      rw [dropLead_append]
      simp [hguard, he, ha]
    simp only [parseImage, dropLead_append, hn1, ht]
  | png =>
    show parseImage (("data:image/" : String).data ++
      (("png;base64," : String).data ++ payload)) = _
    have hn1 : tryType ImgType.jpeg (("png;base64," : String).data ++ payload) = none := rfl
    have hn2 : tryType ImgType.jpg (("png;base64," : String).data ++ payload) = none := rfl
    have ht : tryType ImgType.png (("png;base64," : String).data ++ payload) =
        some (ImgType.png, payload) := by
      simp only [tryType, subtypeStr]
      rw [show ("png" ++ ";base64," : String).data = ("png;base64," : String).data from rfl]
      rw [dropLead_append]
      simp [hguard, he, ha]
    simp only [parseImage, dropLead_append, hn1, hn2, ht]
  | webp =>
    show parseImage (("data:image/" : String).data ++
      (("webp;base64," : String).data ++ payload)) = _
    have hn1 : tryType ImgType.jpeg (("webp;base64," : String).data ++ payload) = none := rfl
    have hn2 : tryType ImgType.jpg (("webp;base64," : String).data ++ payload) = none := rfl
    have hn3 : tryType ImgType.png (("webp;base64," : String).data ++ payload) = none := rfl
    have ht : tryType ImgType.webp (("webp;base64," : String).data ++ payload) =
        some (ImgType.webp, payload) := by
      simp only [tryType, subtypeStr]
      rw [show ("webp" ++ ";base64," : String).data = ("webp;base64," : String).data from rfl]
      rw [dropLead_append]
      simp [hguard, he, ha]
    simp only [parseImage, dropLead_append, hn1, hn2, hn3, ht]

/-- Claim C10 (amended): for every supported subtype, any non-empty payload
of non-line-terminator characters after ;base64, passes the format check
without any base64-alphabet validation, and the size estimate is computed
solely from the raw payload string length. (As stated the claim said any
non-empty character sequence passes, but the regex dot excludes line
terminators, so a payload containing a newline is rejected.) -/
theorem c10_payload_acceptance (t : ImgType) (payload : List Char) (h1 : payload ≠ [])
    (h2 : ∀ c ∈ payload, lineTerminator c = false) :
    parseImage (mkDataUri t payload).data = some (t, payload) ∧
    imageSizeBytesQ payload.length = (payload.length : ℚ) * 3 / 4 :=
  ⟨parseImage_mkDataUri t payload h1 h2, rfl⟩

/-- Counterexample for C10 as stated: the payload A-newline-B is a non-empty
character sequence after ;base64, yet the pattern match fails and the
handler returns the invalid-format result. -/
theorem c10_newline_payload_counterexample :
    (['A', '\n', 'B'] : List Char) ≠ [] ∧
    parseImage (mkDataUri ImgType.jpeg ['A', '\n', 'B']).data = none ∧
    diagnose true AdvisoryMode.diagnosis_only OutputFormat.structured
      (mkDataUri ImgType.jpeg ['A', '\n', 'B']) none (UpstreamBehavior.succeeds "ok") =
      invalidFormatResult :=
  ⟨by decide, by decide, by decide⟩

/-- Witness for C10 at the png subtype with the non-base64 payload "!!!". -/
theorem c10_payload_acceptance_witness :
    (['!', '!', '!'] : List Char) ≠ [] ∧
    (∀ c ∈ (['!', '!', '!'] : List Char), lineTerminator c = false) ∧
    parseImage (mkDataUri ImgType.png ['!', '!', '!']).data =
      some (ImgType.png, ['!', '!', '!']) :=
  ⟨by decide, by decide,
   (c10_payload_acceptance ImgType.png ['!', '!', '!'] (by decide) (by decide)).1⟩

/-- A payload of 7130320 characters has an estimated size of about
5.10000014 MB, above the ceiling. -/
theorem big_image_size : exceedsMaxSize (imageSizeMBQ 7130320) = true := by
  simp [exceedsMaxSize, imageSizeMBQ, imageSizeBytesQ]
  norm_num

/-- At that length the one-decimal rendering of the computed size is 5.1. -/
theorem big_image_text :
    tooLargeText (imageSizeMBQ 7130320) =
      "Image is too large (5.1MB). Please provide an image smaller than 5MB." := by
  have hf : ⌊(imageSizeMBQ 7130320 * 10 + 1 / 2 : ℚ)⌋ = (51 : ℤ) := by
    rw [Int.floor_eq_iff]
    norm_num [imageSizeMBQ, imageSizeBytesQ]
  rw [tooLargeText, toFixed1, hf]
  rfl

/-- Claim C4: the size estimate is payload length times 3 over 4; the size
check evaluated at an estimate of exactly 5 MB passes (the guard is a strict
comparison); and a jpeg data URI whose payload length gives an estimated
size of 5.1 MB is rejected with the TooLarge message reporting 5.1MB to one
decimal place. -/
theorem c4_size_boundary :
    (∀ len : Nat, imageSizeBytesQ len = (len : ℚ) * 3 / 4 ∧
      imageSizeMBQ len = imageSizeBytesQ len / (1024 * 1024)) ∧
    exceedsMaxSize 5 = false ∧
    (∀ (m : AdvisoryMode) (f : OutputFormat) (crop : Option String) (up : UpstreamBehavior),
      diagnose true m f (mkDataUri ImgType.jpeg (List.replicate 7130320 'A')) crop up =
        { text := "Image is too large (5.1MB). Please provide an image smaller than 5MB.",
          isError := true }) := by
  refine ⟨fun len => ⟨rfl, rfl⟩, ?_, ?_⟩
  · simp [exceedsMaxSize]
  · intro m f crop up
    have hrep : (List.replicate 7130320 'A' : List Char) ≠ [] := by
      have hl : (List.replicate 7130320 'A' : List Char).length = 7130320 :=
        List.length_replicate ..
      intro hnil
      rw [hnil] at hl
      simp at hl
    have hp := parseImage_mkDataUri ImgType.jpeg (List.replicate 7130320 'A') hrep
      (fun c hc => by rw [List.eq_of_mem_replicate hc]; rfl)
    have hlen0 : ¬ ((mkDataUri ImgType.jpeg (List.replicate 7130320 'A')).length = 0) := by
      have h : (mkDataUri ImgType.jpeg (List.replicate 7130320 'A')).length =
          ("data:image/" ++ subtypeStr ImgType.jpeg ++ ";base64,").data.length + 7130320 := by
        rw [mkDataUri]
        rw [show ∀ l : List Char, (String.mk l).length = l.length from fun l => rfl]
        rw [List.length_append, List.length_replicate]
      rw [h]
      omega
    have h51 : exceedsMaxSize
        (imageSizeMBQ (List.replicate 7130320 'A' : List Char).length) = true := by
      rw [List.length_replicate ..]
      exact big_image_size
    rw [diagnose_parsed m f crop up hlen0 hp]
    rw [sizeStage_tooLarge _ _ h51]
    rw [List.length_replicate ..]
    rw [big_image_text]

end AgriVision
